import Mathlib

/-!
Verification of the urban heat island (ICU) analysis pipeline in `main.py`.

The source drives Google Earth Engine through lazily evaluated image
expressions.  The shallow embedding below represents an image ("raster") as a
function from pixel coordinates to `Option` values, where `none` is a masked
(invalid) pixel, exactly matching Earth Engine's masked-value propagation.
Server-side evaluation failures (forcing a `null` computed object with
`getInfo`) are represented by the `Except` error monad; the catch-all
`try/except` of `analizar_islas_calor_completo` becomes a match sending every
error to `none`.
-/

namespace ICU

/-- Pixel coordinate on a raster grid (row, column as naturals). -/
abbrev Pix : Type := Nat × Nat

/-- Finite raster grid dimensions. -/
structure Grid where
  w : Nat
  h : Nat
deriving DecidableEq

/-- All pixels of a grid, enumerated row by row. -/
def Grid.pixels (g : Grid) : List Pix :=
  (List.range g.w).foldr
    (fun i acc => ((List.range g.h).map (fun j => (i, j))) ++ acc) []

/-- A single-band raster: per-pixel optional value, `none` = masked/invalid. -/
def Raster (α : Type) : Type := Pix → Option α

/-- Earth Engine `image.updateMask(m)`: a pixel survives only where the mask
raster holds a set (nonzero) value; masked or zero mask pixels invalidate. -/
def updateMask {α : Type} (img : Raster α) (m : Raster Bool) : Raster α :=
  fun p =>
    match m p with
    | some true => img p
    | _ => none

/-- Earth Engine `image.selfMask()` on a boolean image: zero-valued pixels
become masked; set pixels stay set. -/
def selfMask (img : Raster Bool) : Raster Bool :=
  fun p =>
    match img p with
    | some true => some true
    | _ => none

/-- Earth Engine `image.gte(c)` on a rational-valued image (mask propagates). -/
def gteQ (img : Raster ℚ) (u : ℚ) : Raster Bool :=
  fun p => (img p).map (fun v => decide (u ≤ v))

/-- Earth Engine `image.gte(c)` on a count-valued image (mask propagates). -/
def gteN (img : Raster Nat) (c : Nat) : Raster Bool :=
  fun p => (img p).map (fun v => decide (c ≤ v))

/-!
## Scenes and the two per-scene masking functions (main.py lines 66-76)

A Landsat scene carries the `QA_PIXEL` quality band, the `ST_B10` raw thermal
band (16-bit digital numbers, hence `Nat`), a shared per-pixel validity mask,
and the scene-level `CLOUD_COVER` attribute.
-/

structure Scene where
  qa : Pix → Nat
  stB10 : Pix → Nat
  valid : Pix → Bool
  cloudCover : ℚ

/-- `cloudMaskFunction` (main.py 66-71): keep a pixel iff the bitwise AND of
`QA_PIXEL` with the cloud bit (1 <<< 5) and with the shadow bit (1 <<< 3),
combined with logical Or, equals zero. -/
def cloudMaskFunction (s : Scene) : Scene :=
  { s with
    valid := fun p =>
      s.valid p &&
        !(decide (s.qa p &&& 1 <<< 5 ≠ 0) || decide (s.qa p &&& 1 <<< 3 ≠ 0)) }

/-- `noThermalDataFunction` (main.py 73-76): keep a pixel iff the raw thermal
value satisfies `st_band.gt(0).And(st_band.lt(65535))`. -/
def noThermalDataFunction (s : Scene) : Scene :=
  { s with
    valid := fun p =>
      s.valid p && (decide (0 < s.stB10 p) && decide (s.stB10 p < 65535)) }

/-- `MAX_NUBES` (main.py line 32). -/
def MAX_NUBES : ℚ := 30

/-- The filtered, masked image collection (main.py 149-154): filter by
`CLOUD_COVER < MAX_NUBES`, then map the two masking functions.  (Spatial and
date filtering are part of the scene source; the input list is the collection
they returned.) -/
def mkColeccion (scenes : List Scene) : List Scene :=
  ((scenes.filter (fun s => decide (s.cloudCover < MAX_NUBES))).map
      cloudMaskFunction).map
    noThermalDataFunction

/-!
## Percentile reducer, mosaic and LST conversion (main.py 164-179)
-/

/-- Percentile of a value list with linear interpolation between order
statistics; `none` on an empty population, as Earth Engine's percentile
reducer yields `null` there.  `per` is the integer percentile (the source
passes 50 for the composite and the 80-95 slider value for detection). -/
def percentileQ (xs : List ℚ) (per : Nat) : Option ℚ :=
  match xs with
  | [] => none
  | _ =>
    let ys := List.insertionSort (· ≤ ·) xs
    let t := per * (ys.length - 1)
    let k := t / 100
    let frac : ℚ := ((t % 100 : Nat) : ℚ) / 100
    let lo := ys.getD k 0
    let hi := ys.getD (k + 1) lo
    some (lo + frac * (hi - lo))

/-- The `ST_B10` values of the scenes that are valid at pixel `p`. -/
def bandValues (scenes : List Scene) (p : Pix) : List ℚ :=
  scenes.filterMap (fun s => if s.valid p then some ((s.stB10 p : ℚ)) else none)

/-- The `ST_B10_p50` band of `coleccion.reduce(ee.Reducer.percentile([50]))`
(main.py 166, 174): per-pixel 50th percentile over the valid scene values;
masked where no scene is valid. -/
def mkMosaico (scenes : List Scene) : Raster ℚ :=
  fun p => percentileQ (bandValues scenes p) 50

/-- Radiometric conversion (main.py 175-179):
`value * 0.00341802 + 149.0 - 273.15`, with the decimal constants as exact
rationals. -/
def lstConvert (v : ℚ) : ℚ :=
  v * (341802 / 100000000) + 149 - 27315 / 100

/-- The `LST_Celsius` raster (main.py 174-179): converted mosaic, masked
pixels stay masked. -/
def lstOf (scenes : List Scene) : Raster ℚ :=
  fun p => (mkMosaico scenes p).map lstConvert

/-- Inverse of the affine radiometric conversion (the mathematical inverse of
`lstConvert`; used to state the round-trip property). -/
def invAffine (x : ℚ) : ℚ :=
  (x - 149 + 27315 / 100) / (341802 / 100000000)

/-!
## Threshold detection (main.py 187-207)
-/

/-- The restricted population of `reduceRegion(geometry=aoi)` (main.py
190-196): converted values of the pixels of the grid that are valid and lie
inside the ROI. -/
def restrictedPop (g : Grid) (scenes : List Scene) (roi : Pix → Bool) :
    List ℚ :=
  g.pixels.filterMap (fun p => if roi p then lstOf scenes p else none)

/-- The dictionary returned by the percentile `reduceRegion` (main.py
190-196): one entry, keyed by the requested percentile, holding `null`
(`none`) exactly when the restricted population is empty. -/
def pctDictOf (pop : List ℚ) (per : Nat) : List (Nat × Option ℚ) :=
  [(per, percentileQ pop per)]

/-- The threshold selection (main.py 198-204): if the dictionary contains the
requested key take its value, otherwise fall back to the dictionary's first
value.  A `none` result models the `null` computed object whose forcing makes
the Earth Engine evaluation fail. -/
def umbralOf (pop : List ℚ) (per : Nat) : Option ℚ :=
  let d := pctDictOf pop per
  if d.any (fun kv => kv.1 == per) then
    match d.lookup per with
    | some v => v
    | none => none
  else
    match d.head? with
    | some kv => kv.2
    | none => none

/-- The raw hot mask `uhiMask = lstForThreshold.gte(umbral)` (main.py 207).
Note: the ROI does not occur here; the comparison is applied on the full
grid. -/
def uhiMaskOf (scenes : List Scene) (u : ℚ) : Raster Bool :=
  gteQ (lstOf scenes) u

/-!
## Connected components and mask cleaning (main.py 208-209)

`connectedPixelCount(maxSize=1024, eightConnected=True)` counts, per valid
pixel, the pixels of its same-valued 8-connected component, capping the count
at `maxSize`.  The component is computed by iterated neighbourhood expansion
with enough fuel to reach the fixpoint on the finite grid.
-/

/-- In-bounds 8-neighbourhood of a pixel. -/
def nbrs (g : Grid) (p : Pix) : List Pix :=
  ([(-1, -1), (-1, 0), (-1, 1), (0, -1), (0, 1), (1, -1), (1, 0), (1, 1)] :
      List (Int × Int)).filterMap
    (fun d =>
      let i : Int := (p.1 : Int) + d.1
      let j : Int := (p.2 : Int) + d.2
      if 0 ≤ i ∧ i < (g.w : Int) ∧ 0 ≤ j ∧ j < (g.h : Int) then
        some (i.toNat, j.toNat)
      else none)

/-- One-step closure candidate list: every current pixel together with its
in-bounds neighbours. -/
def expandList (g : Grid) (cur : List Pix) : List Pix :=
  cur.foldr (fun q acc => q :: (nbrs g q ++ acc)) []

/-- Fuelled flood-fill: repeatedly expand, keep only pixels holding the value
`v`, and deduplicate. -/
def growComp (g : Grid) (m : Raster Bool) (v : Option Bool) :
    Nat → List Pix → List Pix
  | 0, cur => cur
  | fuel + 1, cur =>
    growComp g m v fuel
      (((expandList g cur).filter (fun q => decide (m q = v))).dedup)

/-- The same-valued 8-connected component of `p` in mask `m`; `g.w * g.h`
expansion rounds reach the fixpoint on a `g.w × g.h` grid. -/
def component (g : Grid) (m : Raster Bool) (p : Pix) : List Pix :=
  growComp g m (m p) (g.w * g.h) [p]

/-- `connectedPixelCount(maxSize, eightConnected=True)` (main.py 208): per
valid pixel, the component size counted up to the cap; masked pixels stay
masked. -/
def connectedPixelCountR (g : Grid) (m : Raster Bool) (maxSize : Nat) :
    Raster Nat :=
  fun p => (m p).map (fun _ => min (component g m p).length maxSize)

/-- The cleaning composite of main.py 208-209 with an explicit size cap:
`mask.updateMask(connectedPixelCount(cap).gte(minPix)).selfMask()`.  The
source instantiates `cap := 1024`. -/
def cleanMaskWith (g : Grid) (m : Raster Bool) (cap minPix : Nat) :
    Raster Bool :=
  selfMask (updateMask m (gteN (connectedPixelCountR g m cap) minPix))

/-- `uhiClean` (main.py 208-209): the raw mask cleaned with the source's cap
of 1024 pixels. -/
def uhiCleanOf (g : Grid) (scenes : List Scene) (u : ℚ) (minPix : Nat) :
    Raster Bool :=
  cleanMaskWith g (uhiMaskOf scenes u) 1024 minPix

/-!
## Zonal statistics and the complete analysis (main.py 215-295)
-/

/-- The general LST statistics dictionary (main.py 218-226): min, max, mean
and percentiles 5/50/95 over the valid-inside-ROI population.  Every field is
`none` (`null` in the source) on an empty population; `getInfo` on such a
dictionary does not raise. -/
structure StatsRecord where
  lstMin : Option ℚ
  lstMax : Option ℚ
  lstMean : Option ℚ
  p5 : Option ℚ
  p50 : Option ℚ
  p95 : Option ℚ

def mkStats (pop : List ℚ) : StatsRecord :=
  { lstMin := pop.min?
    lstMax := pop.max?
    lstMean :=
      match pop with
      | [] => none
      | _ => some (pop.sum / (pop.length : ℚ))
    p5 := percentileQ pop 5
    p50 := percentileQ pop 50
    p95 := percentileQ pop 95 }

/-- Severity statistics (main.py 240-246): mean and max of LST restricted to
the cleaned mask inside the ROI. -/
structure SevRecord where
  sevMean : Option ℚ
  sevMax : Option ℚ

def mkSev (pop : List ℚ) : SevRecord :=
  { sevMean :=
      match pop with
      | [] => none
      | _ => some (pop.sum / (pop.length : ℚ))
    sevMax := pop.max? }

/-- Population for the severity statistics: LST values at pixels inside the
ROI with the cleaned mask set. -/
def sevPop (g : Grid) (scenes : List Scene) (roi : Pix → Bool) (u : ℚ)
    (minPix : Nat) : List ℚ :=
  g.pixels.filterMap (fun p =>
    if roi p && decide (uhiCleanOf g scenes u minPix p = some true) then
      lstOf scenes p
    else none)

/-- Pixels inside the ROI carrying the cleaned hot mask — the population of
`ee.Image.pixelArea().updateMask(uhiClean).reduceRegion(sum, geometry=aoi)`
(main.py 229-235). -/
def hotPixels (g : Grid) (scenes : List Scene) (roi : Pix → Bool) (u : ℚ)
    (minPix : Nat) : List Pix :=
  g.pixels.filter (fun p =>
    roi p && decide (uhiCleanOf g scenes u minPix p = some true))

/-- Pixels inside the ROI — the population of
`ee.Image.pixelArea().reduceRegion(sum, geometry=aoi)` (main.py 249-255). -/
def roiPixels (g : Grid) (roi : Pix → Bool) : List Pix :=
  g.pixels.filter roi

/-- `reduceRegion` with a sum reducer: `null` (`none`) on an empty
population, otherwise the sum of the per-pixel values. -/
def reduceRegionSum (ps : List Pix) (f : Pix → ℚ) : Option ℚ :=
  match ps with
  | [] => none
  | _ => some ((ps.map f).sum)

/-- Error taxonomy of the analysis, following the points where the source
aborts: the explicit `count == 0` early return (main.py 160-162), and the
Earth Engine evaluation failures raised when a `null` computed object is
forced by `getInfo` — the `null` percentile threshold (main.py 198-204,
forced at 237) and the `null` area sums (main.py 237, 257). -/
inductive PipelineError where
  | emptyInput
  | insufficientData
  | nullHotArea
  | nullTotalArea
deriving DecidableEq

/-- The result dictionary of `analizar_islas_calor_completo` (main.py
278-291).  The tile URLs and visualization parameters are rendering artifacts
outside the raster pipeline and are not modelled. -/
structure AnalysisResult where
  lstCelsius : Raster ℚ
  aoi_geometry : Pix → Bool
  estadisticas : StatsRecord
  area_uhi_ha : ℚ
  area_total_ha : ℚ
  porcentaje_uhi : ℚ
  severidad : SevRecord
  umbral_uhi : ℚ
  n_imagenes : Nat

/-- The body of the `try` block of `analizar_islas_calor_completo` (main.py
141-291) as a function of the scene collection, ROI, detection percentile,
minimum patch size and the per-pixel geographic area supplied by
`ee.Image.pixelArea()`.  Errors are raised in the order in which the source's
`getInfo` calls force them. -/
def pipelineCore (g : Grid) (scenes : List Scene) (roi : Pix → Bool)
    (percentil : Nat) (minPix : Nat) (area : Pix → ℚ) :
    Except PipelineError AnalysisResult :=
  let coleccion := mkColeccion scenes
  if coleccion.length = 0 then .error .emptyInput
  else
    let pop := restrictedPop g coleccion roi
    match umbralOf pop percentil with
    | none => .error .insufficientData
    | some u =>
      match reduceRegionSum (hotPixels g coleccion roi u minPix) area with
      | none => .error .nullHotArea
      | some aSum =>
        match reduceRegionSum (roiPixels g roi) area with
        | none => .error .nullTotalArea
        | some tSum =>
          let areaHa := aSum / 10000
          let totalHa := tSum / 10000
          .ok
            { lstCelsius := lstOf coleccion
              aoi_geometry := roi
              estadisticas := mkStats pop
              area_uhi_ha := areaHa
              area_total_ha := totalHa
              porcentaje_uhi :=
                if 0 < totalHa then areaHa / totalHa * 100 else 0
              severidad := mkSev (sevPop g coleccion roi u minPix)
              umbral_uhi := u
              n_imagenes := coleccion.length }

/-- `analizar_islas_calor_completo` (main.py 139-295): the whole body runs
inside `try`, and the catch-all `except` reports the error and returns
`None`. -/
def analizar (g : Grid) (scenes : List Scene) (roi : Pix → Bool)
    (percentil : Nat) (minPix : Nat) (area : Pix → ℚ) :
    Option AnalysisResult :=
  match pipelineCore g scenes roi percentil minPix area with
  | .ok r => some r
  | .error _ => none

/-!
## Helper lemmas
-/

theorem expandList_cons (g : Grid) (a : Pix) (l : List Pix) :
    expandList g (a :: l) = a :: (nbrs g a ++ expandList g l) := rfl

theorem mem_expandList {g : Grid} {cur : List Pix} {p : Pix} (hp : p ∈ cur) :
    p ∈ expandList g cur := by
  induction cur with
  | nil => cases hp
  | cons a l ih =>
    rw [expandList_cons]
    rcases List.mem_cons.mp hp with h | h
    · exact h ▸ List.mem_cons_self _ _
    · exact List.mem_cons_of_mem _ (List.mem_append_right _ (ih h))

theorem mem_growComp {g : Grid} {m : Raster Bool} {v : Option Bool}
    (fuel : Nat) {cur : List Pix} {p : Pix} (hp : p ∈ cur) (hv : m p = v) :
    p ∈ growComp g m v fuel cur := by
  induction fuel generalizing cur with
  | zero => exact hp
  | succ n ih =>
    apply ih
    rw [List.mem_dedup, List.mem_filter]
    exact ⟨mem_expandList hp, by simp [hv]⟩

theorem self_mem_component (g : Grid) (m : Raster Bool) (p : Pix) :
    p ∈ component g m p :=
  mem_growComp _ (List.mem_cons_self p []) rfl

/-- Characterization of the cleaning composite of main.py 208-209: a pixel is
set in the output iff it is set in the input and its capped component count
reaches the minimum patch size. -/
theorem cleanMaskWith_set_iff (g : Grid) (m : Raster Bool) (cap minPix : Nat)
    (p : Pix) :
    cleanMaskWith g m cap minPix p = some true ↔
      m p = some true ∧ minPix ≤ min (component g m p).length cap := by
  rcases hm : m p with _ | b
  · simp [cleanMaskWith, selfMask, updateMask, gteN, connectedPixelCountR, hm]
  · by_cases hle : minPix ≤ min (component g m p).length cap
    · cases b <;>
        simp [cleanMaskWith, selfMask, updateMask, gteN, connectedPixelCountR,
          hm, hle]
    · cases b <;>
        simp [cleanMaskWith, selfMask, updateMask, gteN, connectedPixelCountR,
          hm, hle]

theorem percentileQ_singleton (x : ℚ) (per : Nat) :
    percentileQ [x] per = some x := by
  simp [percentileQ, List.insertionSort, List.orderedInsert]

theorem umbralOf_nil (per : Nat) : umbralOf [] per = none := by
  simp [umbralOf, pctDictOf, percentileQ, List.lookup]

theorem umbralOf_single (x : ℚ) (per : Nat) : umbralOf [x] per = some x := by
  simp [umbralOf, pctDictOf, percentileQ_singleton, List.lookup]

theorem reduceRegionSum_ne_nil {ps : List Pix} {f : Pix → ℚ} (h : ps ≠ []) :
    reduceRegionSum ps f = some ((ps.map f).sum) := by
  cases ps with
  | nil => exact absurd rfl h
  | cons a l => rfl

theorem pipelineCore_of_empty {g : Grid} {scenes : List Scene}
    {roi : Pix → Bool} {per minPix : Nat} {area : Pix → ℚ}
    (h : (mkColeccion scenes).length = 0) :
    pipelineCore g scenes roi per minPix area = .error .emptyInput := by
  simp [pipelineCore, h]

/-!
## Concrete inputs for witnesses and counterexamples
-/

/-- 1-by-1 grid. -/
def gW1 : Grid := ⟨1, 1⟩

/-- 2-by-1 grid. -/
def gA : Grid := ⟨2, 1⟩

/-- 2-by-2 grid. -/
def gB : Grid := ⟨2, 2⟩

/-- ROI covering everything. -/
def roiW : Pix → Bool := fun _ => true

/-- ROI covering only column-0 pixels. -/
def roiA : Pix → Bool := fun p => p.1 == 0

/-- Constant per-pixel geographic area of 900 square metres. -/
def areaW : Pix → ℚ := fun _ => 900

/-- A fully valid scene: clear quality band, thermal value 1000, no clouds. -/
def sceneClear : Scene :=
  { qa := fun _ => 0
    stB10 := fun _ => 1000
    valid := fun _ => true
    cloudCover := 0 }

/-- A scene whose quality band has the cloud bit set at every pixel. -/
def sceneCloud : Scene :=
  { qa := fun _ => 1 <<< 5
    stB10 := fun _ => 1000
    valid := fun _ => true
    cloudCover := 0 }

/-- A scene rejected by the `CLOUD_COVER < 30` filter. -/
def sceneFar : Scene :=
  { qa := fun _ => 0
    stB10 := fun _ => 1000
    valid := fun _ => true
    cloudCover := 50 }

/-- The converted LST value of a raw thermal reading of 1000. -/
def uA : ℚ := lstConvert 1000

/-- A mask whose only grid pixel is valid but unset. -/
def maskAllFalse : Raster Bool := fun _ => some false

/-- A mask on `gB` with an L-shaped 3-pixel component and one unset pixel. -/
def maskL : Raster Bool := fun p => if p = (1, 1) then some false else some true

theorem lstOf_clear (p : Pix) :
    lstOf (mkColeccion [sceneClear]) p = some uA := by
  have hb : bandValues (mkColeccion [sceneClear]) p = [((1000 : Nat) : ℚ)] := by
    simp [bandValues, mkColeccion, MAX_NUBES, sceneClear, cloudMaskFunction,
      noThermalDataFunction]
  simp [lstOf, mkMosaico, hb, percentileQ_singleton, uA]

theorem pop_A : restrictedPop gA (mkColeccion [sceneClear]) roiA = [uA] := by
  simp [restrictedPop, show Grid.pixels gA = [(0, 0), (1, 0)] from by decide,
    roiA, lstOf_clear]

theorem pop_W : restrictedPop gW1 (mkColeccion [sceneClear]) roiW = [uA] := by
  simp [restrictedPop, show Grid.pixels gW1 = [(0, 0)] from by decide,
    roiW, lstOf_clear]

/-!
## Claims about the component cleaner (C4, C5, C9)
-/

/-- C4: with a size cap at least the minimum component size, a pixel is set
in the cleaned mask iff it is set in the input mask and the counted (capped)
size of its connected component reaches the minimum size; a component whose
true size reaches the cap always satisfies the requirement. -/
theorem c4_clean_iff_capped_count (g : Grid) (m : Raster Bool)
    (cap minPix : Nat) (p : Pix) (hcap : minPix ≤ cap) :
    (cleanMaskWith g m cap minPix p = some true ↔
      m p = some true ∧ minPix ≤ min (component g m p).length cap) ∧
    (m p = some true → cap ≤ (component g m p).length →
      cleanMaskWith g m cap minPix p = some true) := by
  refine ⟨cleanMaskWith_set_iff g m cap minPix p, fun hset hge => ?_⟩
  exact (cleanMaskWith_set_iff g m cap minPix p).mpr
    ⟨hset, by rw [min_eq_right hge]; exact hcap⟩

theorem c4_witness :
    3 ≤ 1024 ∧
    ((cleanMaskWith gB maskL 1024 3 (0, 0) = some true ↔
        maskL (0, 0) = some true ∧
          3 ≤ min (component gB maskL (0, 0)).length 1024) ∧
      (maskL (0, 0) = some true →
        1024 ≤ (component gB maskL (0, 0)).length →
        cleanMaskWith gB maskL 1024 3 (0, 0) = some true)) :=
  ⟨by decide, c4_clean_iff_capped_count gB maskL 1024 3 (0, 0) (by decide)⟩

/-- C5: for every mask and every cleaner configuration, every pixel set in
the cleaned mask was set in the input mask — cleaning never adds pixels. -/
theorem c5_clean_subset (g : Grid) (m : Raster Bool) (cap minPix : Nat)
    (p : Pix) (h : cleanMaskWith g m cap minPix p = some true) :
    m p = some true :=
  ((cleanMaskWith_set_iff g m cap minPix p).mp h).1

theorem c5_witness :
    cleanMaskWith gB maskL 1024 1 (0, 0) = some true ∧
    maskL (0, 0) = some true :=
  ⟨by decide, c5_clean_subset gB maskL 1024 1 (0, 0) (by decide)⟩

/-- C9 counterexample: cleaning with minimum size 1 is not the identity on
the code — the final `selfMask` turns the valid-but-unset pixel of
`maskAllFalse` into a masked pixel, so the cleaned raster differs from the
input at (0, 0). -/
theorem c9_counterexample :
    cleanMaskWith gW1 maskAllFalse 1024 1 (0, 0) = none ∧
    maskAllFalse (0, 0) = some false ∧
    cleanMaskWith gW1 maskAllFalse 1024 1 (0, 0) ≠ maskAllFalse (0, 0) := by
  decide

/-- C9 amended: cleaning with minimum component size 1 (and the source's cap
of 1024) preserves exactly the set pixels: a pixel is set in the cleaned mask
iff it is set in the input.  (Equality of the full rasters fails: unset valid
pixels become masked by `selfMask`.) -/
theorem c9_min_size_one_preserves_set_pixels (g : Grid) (m : Raster Bool)
    (p : Pix) :
    cleanMaskWith g m 1024 1 p = some true ↔ m p = some true := by
  rw [cleanMaskWith_set_iff]
  constructor
  · exact fun h => h.1
  · intro h
    refine ⟨h, le_min ?_ (by decide)⟩
    exact List.length_pos.mpr (List.ne_nil_of_mem (self_mem_component g m p))

/-!
## Claims about the per-scene masking and the radiometric conversion (C6, C7)
-/

/-- C6: the cloud/shadow masking keeps a pixel iff neither the cloud bit
(1 <<< 5) nor the shadow bit (1 <<< 3) of its quality band is set; the
thermal-validity masking keeps a pixel iff its raw thermal value is strictly
between 0 and 65535; and after both maskings a pixel is excluded exactly when
it was already invalid, a cloud/shadow bit is set, or the thermal value is 0
or at least 65535. -/
theorem c6_quality_mask_iff (s : Scene) (p : Pix) :
    ((cloudMaskFunction s).valid p = true ↔
      s.valid p = true ∧ s.qa p &&& 1 <<< 5 = 0 ∧ s.qa p &&& 1 <<< 3 = 0) ∧
    ((noThermalDataFunction s).valid p = true ↔
      s.valid p = true ∧ 0 < s.stB10 p ∧ s.stB10 p < 65535) ∧
    ((noThermalDataFunction (cloudMaskFunction s)).valid p = false ↔
      (s.valid p = false ∨ s.qa p &&& 1 <<< 5 ≠ 0 ∨ s.qa p &&& 1 <<< 3 ≠ 0 ∨
        s.stB10 p = 0 ∨ 65535 ≤ s.stB10 p)) := by
  cases hv : s.valid p <;>
    by_cases h5 : s.qa p &&& 1 <<< 5 = 0 <;>
    by_cases h3 : s.qa p &&& 1 <<< 3 = 0 <;>
    by_cases hz : s.stB10 p = 0 <;>
    by_cases hs : s.stB10 p < 65535 <;>
    simp [cloudMaskFunction, noThermalDataFunction, hv, h5, h3, hz, hs] <;>
    omega

/-- C7: converting a raw sensor value with the source's affine transform
`v * 0.00341802 + 149.0 - 273.15` and applying the inverse affine transform
recovers the original value exactly (the embedding uses exact rationals, so
recovery is exact, a fortiori within any floating-point tolerance). -/
theorem c7_radiometric_roundtrip (v : ℚ) : invAffine (lstConvert v) = v := by
  unfold invAffine lstConvert
  rw [div_eq_iff (by norm_num : (341802 / 100000000 : ℚ) ≠ 0)]
  ring

/-!
## Claims about the analysis pipeline (C1, C2, C3, C8, C10)
-/

/-- C1: whenever the scene collection is non-empty but the restricted
population (valid pixels inside the ROI) is empty, the analysis fails with
`InsufficientDataError` — the percentile dictionary holds only `null`, so no
defaulted or substitute threshold value exists. -/
theorem c1_empty_population_insufficient_data (g : Grid)
    (scenes : List Scene) (roi : Pix → Bool) (per minPix : Nat)
    (area : Pix → ℚ) (h1 : ¬(mkColeccion scenes).length = 0)
    (h2 : restrictedPop g (mkColeccion scenes) roi = []) :
    pipelineCore g scenes roi per minPix area = .error .insufficientData ∧
    umbralOf (restrictedPop g (mkColeccion scenes) roi) per = none := by
  constructor
  · simp only [pipelineCore]
    rw [if_neg h1, h2, umbralOf_nil]
  · rw [h2]
    exact umbralOf_nil per

theorem c1_witness :
    (¬(mkColeccion [sceneCloud]).length = 0 ∧
      restrictedPop gW1 (mkColeccion [sceneCloud]) roiW = []) ∧
    (pipelineCore gW1 [sceneCloud] roiW 90 3 areaW =
        .error .insufficientData ∧
      umbralOf (restrictedPop gW1 (mkColeccion [sceneCloud]) roiW) 90 =
        none) :=
  ⟨⟨by decide, by decide⟩,
    c1_empty_population_insufficient_data gW1 [sceneCloud] roiW 90 3 areaW
      (by decide) (by decide)⟩

/-- C2 counterexample: the raw hot mask of main.py line 207 is computed on
the full grid with no ROI restriction.  With one clear scene on a 2-by-1
grid whose ROI is only column 0, the pipeline threshold is `uA`, pixel
(1, 0) lies outside the ROI, yet the raw mask is set there — refuting the
claim that every pixel outside the ROI is unset in the mask. -/
theorem c2_counterexample :
    umbralOf (restrictedPop gA (mkColeccion [sceneClear]) roiA) 90 =
      some uA ∧
    roiA (1, 0) = false ∧
    uhiMaskOf (mkColeccion [sceneClear]) uA (1, 0) = some true := by
  refine ⟨?_, rfl, ?_⟩
  · rw [pop_A]
    exact umbralOf_single uA 90
  · simp [uhiMaskOf, gteQ, lstOf_clear]

/-- C2 amended: a pixel is set in the raw hot mask iff it is valid and its
converted value is at least the threshold; the ROI plays no role in the mask
itself (it only restricts the threshold population and the later zonal
statistics and display clipping). -/
theorem c2_mask_iff_valid_and_ge (scenes : List Scene) (u : ℚ) (p : Pix) :
    uhiMaskOf scenes u p = some true ↔
      ∃ v, lstOf scenes p = some v ∧ u ≤ v := by
  unfold uhiMaskOf gteQ
  cases h : lstOf scenes p with
  | none => simp [h]
  | some v => simp [h]

/-- C3: when zero scenes survive the filters, the analysis fails with
`EmptyInputError` before any composite is produced (the `count == 0` early
return of main.py 160-162). -/
theorem c3_empty_collection_empty_input (g : Grid) (scenes : List Scene)
    (roi : Pix → Bool) (per minPix : Nat) (area : Pix → ℚ)
    (h : (mkColeccion scenes).length = 0) :
    pipelineCore g scenes roi per minPix area = .error .emptyInput :=
  pipelineCore_of_empty h

theorem c3_witness :
    (mkColeccion [sceneFar]).length = 0 ∧
    pipelineCore gW1 [sceneFar] roiW 90 3 areaW = .error .emptyInput :=
  ⟨by decide,
    c3_empty_collection_empty_input gW1 [sceneFar] roiW 90 3 areaW
      (by decide)⟩

/-- C8: whenever the analysis returns a result, the reported hot-zone area in
hectares is the sum of the per-pixel geographic areas over the ROI pixels
carrying the cleaned mask, divided by 10000, the total area is the analogous
sum over all ROI pixels, and (for a positive total) the reported percentage
is hot-zone area divided by total area times 100. -/
theorem c8_area_and_percentage (g : Grid) (scenes : List Scene)
    (roi : Pix → Bool) (per minPix : Nat) (area : Pix → ℚ) (u : ℚ)
    (h1 : ¬(mkColeccion scenes).length = 0)
    (h2 : umbralOf (restrictedPop g (mkColeccion scenes) roi) per = some u)
    (h3 : hotPixels g (mkColeccion scenes) roi u minPix ≠ [])
    (h4 : roiPixels g roi ≠ [])
    (h5 : 0 < ((roiPixels g roi).map area).sum) :
    ∃ r, pipelineCore g scenes roi per minPix area = .ok r ∧
      r.area_uhi_ha =
        ((hotPixels g (mkColeccion scenes) roi u minPix).map area).sum /
          10000 ∧
      r.area_total_ha = ((roiPixels g roi).map area).sum / 10000 ∧
      r.porcentaje_uhi = r.area_uhi_ha / r.area_total_ha * 100 := by
  have htot : (0 : ℚ) < ((roiPixels g roi).map area).sum / 10000 :=
    div_pos h5 (by norm_num)
  simp only [pipelineCore, h2, reduceRegionSum_ne_nil h3,
    reduceRegionSum_ne_nil h4, if_neg h1]
  refine ⟨_, rfl, rfl, rfl, ?_⟩
  simp [htot]

theorem uhiMask_clear_set :
    uhiMaskOf (mkColeccion [sceneClear]) uA (0, 0) = some true := by
  simp [uhiMaskOf, gteQ, lstOf_clear]

theorem uhiClean_clear_set :
    uhiCleanOf gW1 (mkColeccion [sceneClear]) uA 1 (0, 0) = some true := by
  unfold uhiCleanOf
  refine (cleanMaskWith_set_iff _ _ _ _ _).mpr ⟨uhiMask_clear_set, ?_⟩
  refine le_min ?_ (by decide)
  exact List.length_pos.mpr
    (List.ne_nil_of_mem (self_mem_component _ _ _))

theorem hotPixels_clear_ne_nil :
    hotPixels gW1 (mkColeccion [sceneClear]) roiW uA 1 ≠ [] := by
  apply List.ne_nil_of_mem (a := ((0, 0) : Pix))
  apply List.mem_filter.mpr
  refine ⟨by decide, ?_⟩
  rw [Bool.and_eq_true, decide_eq_true_eq]
  exact ⟨rfl, uhiClean_clear_set⟩

theorem roiSum_pos : 0 < ((roiPixels gW1 roiW).map areaW).sum := by
  rw [show (roiPixels gW1 roiW).map areaW = [(900 : ℚ)] from rfl]
  simp

theorem c8_witness :
    (¬(mkColeccion [sceneClear]).length = 0 ∧
      umbralOf (restrictedPop gW1 (mkColeccion [sceneClear]) roiW) 90 =
        some uA ∧
      hotPixels gW1 (mkColeccion [sceneClear]) roiW uA 1 ≠ [] ∧
      roiPixels gW1 roiW ≠ [] ∧
      0 < ((roiPixels gW1 roiW).map areaW).sum) ∧
    (∃ r, pipelineCore gW1 [sceneClear] roiW 90 1 areaW = .ok r ∧
      r.area_uhi_ha =
        ((hotPixels gW1 (mkColeccion [sceneClear]) roiW uA 1).map
            areaW).sum / 10000 ∧
      r.area_total_ha = ((roiPixels gW1 roiW).map areaW).sum / 10000 ∧
      r.porcentaje_uhi = r.area_uhi_ha / r.area_total_ha * 100) :=
  ⟨⟨by decide, by rw [pop_W]; exact umbralOf_single uA 90,
      hotPixels_clear_ne_nil, by decide, roiSum_pos⟩,
    c8_area_and_percentage gW1 [sceneClear] roiW 90 1 areaW uA (by decide)
      (by rw [pop_W]; exact umbralOf_single uA 90) hotPixels_clear_ne_nil
      (by decide) roiSum_pos⟩

/-- C10: the complete analysis either returns a result or returns `None`:
every pipeline error yields `None`, every success yields the result, and in
particular an empty filtered collection yields `None`. -/
theorem c10_total_analysis (g : Grid) (scenes : List Scene)
    (roi : Pix → Bool) (per minPix : Nat) (area : Pix → ℚ) :
    (∀ e, pipelineCore g scenes roi per minPix area = .error e →
      analizar g scenes roi per minPix area = none) ∧
    (∀ r, pipelineCore g scenes roi per minPix area = .ok r →
      analizar g scenes roi per minPix area = some r) ∧
    ((mkColeccion scenes).length = 0 →
      analizar g scenes roi per minPix area = none) := by
  refine ⟨fun e h => ?_, fun r h => ?_, fun h => ?_⟩
  · simp [analizar, h]
  · simp [analizar, h]
  · simp [analizar, pipelineCore_of_empty h]

theorem c10_witness :
    (mkColeccion ([] : List Scene)).length = 0 ∧
    analizar gW1 [] roiW 90 3 areaW = none :=
  ⟨rfl, (c10_total_analysis gW1 [] roiW 90 3 areaW).2.2 rfl⟩

end ICU
